import Mathlib

set_option linter.unusedVariables false

/-!
Verification of the `Activities` page-level manager from
`src/activities.js` (web-activities).

The manager is embedded shallowly:

* `Activities` holds the fields of the JS class (`fragment_`,
  `requestHandlers_`, `resultBuffer_`) together with an explicit model of
  the page's microtask queue (`microtasks`) and a log of the callback
  invocations that have run (`log`).  JS objects (`Window`, ports,
  callbacks) become inert values with decidable equality; "same object"
  is value equality of these tags.
* `Promise.resolve().then(() => callback(port))` becomes enqueueing the
  pair `(callback, port)` on the microtask queue; running the queue moves
  tasks, in FIFO order, to the invocation log.  Each scheduled delivery is
  its own promise chain, so an exception thrown by the callback rejects
  only that chain: running a task always proceeds to the next one.
* `discoverRedirectPort` lives in `activity-window-port.js`, which is not
  part of the sources under verification; it is modelled from the spec.
-/

/-- Structured payload of a redirect result, as carried in the URL
fragment under the reserved key (spec section 6). -/
structure RedirectPayload where
  requestId : String
  code : String
  data : String
  origin : String
deriving DecidableEq, Repr

/-- The value of `win.location.hash`, abstracted past percent-decoding:
either the empty string (falsy in JS), a non-empty string that does not
parse to a result payload, or a string embedding one result payload. -/
inductive Hash where
  | empty : Hash
  | malformed (s : String) : Hash
  | result (p : RedirectPayload) : Hash
deriving DecidableEq, Repr

/-- A window as far as the manager observes it: `top == self`, the
opener (with its `closed` flag), and the current `location.hash`. -/
structure OpenerWin where
  closed : Bool
deriving DecidableEq, Repr

structure Win where
  topIsSelf : Bool
  opener : Option OpenerWin
  locationHash : Hash
deriving DecidableEq, Repr

/-- A client-side port object.  `window n` is an `ActivityWindowPort`
created by the n-th `open()` call; `redirect p` is the synthetic port
built from a redirect payload. -/
inductive Port where
  | window (id : Nat) : Port
  | redirect (p : RedirectPayload) : Port
deriving DecidableEq, Repr

/-- A result callback registered through `onResult`.  `throws` records
whether invoking it raises an exception. -/
structure Callback where
  id : Nat
  throws : Bool
deriving DecidableEq, Repr

/-- A scheduled microtask: deliver the port to the callback. -/
abbrev Delivery := Callback × Port

/-- Pointwise update of a string-indexed map. -/
def updateFun {β : Type} (f : String → β) (k : String) (v : β) : String → β :=
  fun r => if r = k then v else f r

/-- State of one `Activities` instance plus the event loop it runs on.
`fragment_`, `requestHandlers_` and `resultBuffer_` are the fields of the
JS class; `microtasks` and `log` model scheduled and completed callback
invocations. -/
structure Activities where
  fragment_ : Hash
  requestHandlers_ : String → List Callback
  resultBuffer_ : String → Option Port
  microtasks : List Delivery
  log : List Delivery

namespace Activities

/-- The constructor: snapshots `win.location.hash` into `fragment_` and
starts with empty registry and buffer. -/
def new (win : Win) : Activities :=
  { fragment_ := win.locationHash
    requestHandlers_ := fun _ => []
    resultBuffer_ := fun _ => none
    microtasks := []
    log := [] }

end Activities

/-- Modelled from the spec: `discoverRedirectPort` (from
`activity-window-port.js`, not among the sources under verification).
Per spec sections 4.1 and 6 it parses the result payload embedded in the
given fragment, matches its `requestId`, and only on a match constructs a
synthetic redirect port; malformed or absent payloads yield no result.
Per spec section 9, discovery is a pure function of the fragment
snapshot, so the live window argument does not influence the outcome. -/
def discoverRedirectPort (win : Win) (fragment : Hash) (requestId : String) :
    Option Port :=
  match fragment with
  | Hash.result p => if p.requestId = requestId then some (Port.redirect p) else none
  | _ => none

namespace Activities

/-- Private method `discoverResult_`: return the buffered port if any;
otherwise, if a non-empty fragment was captured, try the redirect port
discovery and buffer a discovered port.  Returns the port (if any) and
the possibly-updated state. -/
def discoverResult_ (win : Win) (requestId : String) (s : Activities) :
    Option Port × Activities :=
  match s.resultBuffer_ requestId with
  | some p => (some p, s)
  | none =>
    if s.fragment_ = Hash.empty then (none, s)
    else
      match discoverRedirectPort win s.fragment_ requestId with
      | some p =>
        (some p, { s with resultBuffer_ := updateFun s.resultBuffer_ requestId (some p) })
      | none => (none, s)

/-- Private method `consumeResult_`: `Promise.resolve().then(() =>
callback(port))`, i.e. schedule the delivery on the microtask queue. -/
def consumeResult_ (port : Port) (callback : Callback) (s : Activities) : Activities :=
  { s with microtasks := s.microtasks ++ [(callback, port)] }

/-- First half of `onResult`: look up (or create) the handler list for
`requestId` and push the callback onto it. -/
def pushHandler (requestId : String) (callback : Callback) (s : Activities) : Activities :=
  { s with requestHandlers_ :=
      updateFun s.requestHandlers_ requestId (s.requestHandlers_ requestId ++ [callback]) }

/-- `onResult(requestId, callback)`: append the callback to the handler
list for `requestId`, then consume an already-available result, if any. -/
def onResult (win : Win) (requestId : String) (callback : Callback)
    (s : Activities) : Activities :=
  match (s.pushHandler requestId callback).discoverResult_ win requestId with
  | (some p, s2) => s2.consumeResult_ p callback
  | (none, s2) => s2

/-- Private method `consumeResultAll_`: schedule delivery of `port` to
every handler registered for `requestId`, then buffer the result for
callbacks that may arrive in the future. -/
def consumeResultAll_ (requestId : String) (port : Port) (s : Activities) : Activities :=
  let s1 := (s.requestHandlers_ requestId).foldl
    (fun acc handler => acc.consumeResult_ port handler) s
  { s1 with resultBuffer_ := updateFun s1.resultBuffer_ requestId (some port) }

/-- `open(requestId, url, target, args?, options?)`: constructs an
`ActivityWindowPort` and opens it (both effects are external to the
manager state), subscribes `consumeResultAll_` to its `acceptResult()`
promise, and returns `undefined` — no caller-visible promise, so the
model's return type carries only the unchanged state and the new port.
The later resolution of `acceptResult()` is the separate transition
`consumeResultAll_ requestId port`. -/
def open_ (requestId url target : String) (portId : Nat) (s : Activities) :
    Activities × Port :=
  (s, Port.window portId)

/-- Invoke one scheduled delivery: the invocation is appended to the log.
The callback runs in its own promise chain, so a `throws` callback
rejects only that chain; processing always continues. -/
def invokeCallback (s : Activities) (t : Delivery) : Activities :=
  { s with log := s.log ++ [t] }

/-- Drain the microtask queue in FIFO order. -/
def runMicrotasks (s : Activities) : Activities :=
  s.microtasks.foldl invokeCallback { s with microtasks := [] }

/-- Register a list of callbacks one after the other (repeated
`onResult` calls in one synchronous turn). -/
def onResultList (win : Win) (requestId : String) (cbs : List Callback)
    (s : Activities) : Activities :=
  cbs.foldl (fun acc cb => acc.onResult win requestId cb) s

end Activities

/-- The host variant `connectHost` can construct: `ActivityIframeHost`,
`ActivityWindowPopupHost` or `ActivityWindowRedirectHost`. -/
inductive HostVariant where
  | iframe : HostVariant
  | popup : HostVariant
  | redirect : HostVariant
deriving DecidableEq, Repr

/-- The value `connectHost` returns: the promise of `host.connect(request)`
for the constructed host variant, bound to the manager's window. -/
structure HostConnectCall where
  variant : HostVariant
  win : Win
  request : Option String
deriving DecidableEq, Repr

namespace Activities

/-- `connectHost(request?)`: pick the host variant from the windowing
relationships of `win_` — `top != win` gives an iframe host, else a
truthy, non-closed `opener` gives a popup host, else a redirect host —
and return that host's `connect(request)`. -/
def connectHost (win : Win) (request : Option String) : HostConnectCall :=
  if win.topIsSelf = false then
    { variant := HostVariant.iframe, win := win, request := request }
  else if (match win.opener with
           | some o => !o.closed
           | none => false) then
    { variant := HostVariant.popup, win := win, request := request }
  else
    { variant := HostVariant.redirect, win := win, request := request }

end Activities

/-- An `ActivityIframePort` as `openIframe` constructs it: bound to the
given frame element and target URL, with the optional arguments. -/
structure ActivityIframePort where
  iframe_ : Nat
  url_ : String
  args_ : Option String
deriving DecidableEq, Repr

namespace Activities

/-- `openIframe(iframe, url, opt_args)`: construct the port, start its
connect handshake at once, and return `port.connect().then(() => port)`.
The handshake itself runs in `activity-iframe-port.js`, outside the
manager, so its outcome is a parameter: success resolves the returned
promise with the constructed port, failure rejects it with the
handshake's own error, with no retry. -/
def openIframe (iframe : Nat) (url : String) (args : Option String)
    (connectOutcome : Except String Unit) : Except String ActivityIframePort :=
  let port : ActivityIframePort := { iframe_ := iframe, url_ := url, args_ := args }
  match connectOutcome with
  | Except.ok _ => Except.ok port
  | Except.error e => Except.error e

end Activities

/-- Stated from the spec's words for the host-selection claim: embedded in
a different top-level context gives an Iframe Host; top-level with a
non-null opener whose closed flag is false gives a Popup Host; all
remaining cases (opener null or closed) give a Redirect Host. -/
def specHostVariant (win : Win) : HostVariant :=
  if win.topIsSelf = false then HostVariant.iframe
  else
    match win.opener with
    | some o => if o.closed = false then HostVariant.popup else HostVariant.redirect
    | none => HostVariant.redirect

/-- Mutate `win.location.hash` after construction; everything else about
the window is unchanged. -/
def Win.setHash (win : Win) (h : Hash) : Win :=
  { win with locationHash := h }

/-- A top-level window with no opener and an empty fragment. -/
def cleanWin : Win :=
  { topIsSelf := true, opener := none, locationHash := Hash.empty }

/-- Sample redirect payload tagged with `requestId = "X"`. -/
def payloadX : RedirectPayload :=
  { requestId := "X", code := "ok", data := "d", origin := "https://example.com" }

/-- A window whose captured fragment carries the result for `"X"`. -/
def fragWin : Win :=
  { topIsSelf := true, opener := none, locationHash := Hash.result payloadX }

/-- Sample callbacks; `cb2` throws when invoked. -/
def cb1 : Callback := { id := 1, throws := false }

def cb2 : Callback := { id := 2, throws := true }

def cb3 : Callback := { id := 3, throws := false }

/-! ### Basic lemmas about the map update and the event loop -/

theorem updateFun_apply_same {β : Type} (f : String → β) (k : String) (v : β) :
    updateFun f k v k = v := by
  simp [updateFun]

theorem updateFun_apply_ne {β : Type} (f : String → β) (k r : String) (v : β)
    (h : r ≠ k) : updateFun f k v r = f r := by
  simp [updateFun, h]

theorem updateFun_self {β : Type} (f : String → β) (k : String) :
    updateFun f k (f k) = f := by
  funext r
  by_cases hr : r = k <;> simp [updateFun, hr]

theorem updateFun_updateFun {β : Type} (f : String → β) (k : String) (v v' : β) :
    updateFun (updateFun f k v) k v' = updateFun f k v' := by
  funext r
  by_cases hr : r = k <;> simp [updateFun, hr]

namespace Activities

theorem foldl_consumeResult (hs : List Callback) (port : Port) (s : Activities) :
    hs.foldl (fun acc handler => acc.consumeResult_ port handler) s =
      { s with microtasks := s.microtasks ++ hs.map (fun h => (h, port)) } := by
  induction hs generalizing s with
  | nil => simp
  | cons h t ih =>
    rw [List.foldl_cons, ih]
    simp [consumeResult_]

theorem consumeResultAll_spec (requestId : String) (port : Port) (s : Activities) :
    s.consumeResultAll_ requestId port =
      { s with
          microtasks := s.microtasks ++ (s.requestHandlers_ requestId).map (fun h => (h, port)),
          resultBuffer_ := updateFun s.resultBuffer_ requestId (some port) } := by
  simp [consumeResultAll_, foldl_consumeResult]

theorem foldl_invokeCallback (l : List Delivery) (z : Activities) :
    l.foldl invokeCallback z = { z with log := z.log ++ l } := by
  induction l generalizing z with
  | nil => simp
  | cons t ts ih =>
    rw [List.foldl_cons, ih]
    simp [invokeCallback]

theorem runMicrotasks_spec (s : Activities) :
    s.runMicrotasks = { s with microtasks := [], log := s.log ++ s.microtasks } := by
  simp [runMicrotasks, foldl_invokeCallback]

end Activities

/-! ### Characterizations of `discoverResult_` and `onResult` -/

namespace Activities

theorem discoverResult_buffered (win : Win) (requestId : String) (s : Activities)
    (p : Port) (h : s.resultBuffer_ requestId = some p) :
    s.discoverResult_ win requestId = (some p, s) := by
  simp [discoverResult_, h]

theorem discoverResult_noResult (win : Win) (requestId : String) (s : Activities)
    (hbuf : s.resultBuffer_ requestId = none)
    (hnoport : discoverRedirectPort win s.fragment_ requestId = none) :
    s.discoverResult_ win requestId = (none, s) := by
  by_cases hf : s.fragment_ = Hash.empty <;> simp [discoverResult_, hbuf, hf, hnoport]

theorem discoverResult_fragMatch (win : Win) (requestId : String) (s : Activities)
    (p : RedirectPayload) (hbuf : s.resultBuffer_ requestId = none)
    (hfrag : s.fragment_ = Hash.result p) (hmatch : p.requestId = requestId) :
    s.discoverResult_ win requestId =
      (some (Port.redirect p),
        { s with resultBuffer_ :=
            updateFun s.resultBuffer_ requestId (some (Port.redirect p)) }) := by
  simp [discoverResult_, discoverRedirectPort, hbuf, hfrag, hmatch]

end Activities

namespace Activities

theorem onResult_buffered (win : Win) (requestId : String) (cb : Callback)
    (s : Activities) (p : Port) (h : s.resultBuffer_ requestId = some p) :
    s.onResult win requestId cb =
      { s with
          requestHandlers_ :=
            updateFun s.requestHandlers_ requestId (s.requestHandlers_ requestId ++ [cb]),
          microtasks := s.microtasks ++ [(cb, p)] } := by
  unfold onResult
  rw [discoverResult_buffered win requestId (s.pushHandler requestId cb) p h]
  simp [consumeResult_, pushHandler]

theorem onResult_noResult (win : Win) (requestId : String) (cb : Callback)
    (s : Activities) (hbuf : s.resultBuffer_ requestId = none)
    (hnoport : discoverRedirectPort win s.fragment_ requestId = none) :
    s.onResult win requestId cb =
      { s with
          requestHandlers_ :=
            updateFun s.requestHandlers_ requestId (s.requestHandlers_ requestId ++ [cb]) } := by
  unfold onResult
  rw [discoverResult_noResult win requestId (s.pushHandler requestId cb) hbuf hnoport]
  simp [pushHandler]

theorem onResult_fragMatch (win : Win) (requestId : String) (cb : Callback)
    (s : Activities) (p : RedirectPayload) (hbuf : s.resultBuffer_ requestId = none)
    (hfrag : s.fragment_ = Hash.result p) (hmatch : p.requestId = requestId) :
    s.onResult win requestId cb =
      { s with
          requestHandlers_ :=
            updateFun s.requestHandlers_ requestId (s.requestHandlers_ requestId ++ [cb]),
          resultBuffer_ := updateFun s.resultBuffer_ requestId (some (Port.redirect p)),
          microtasks := s.microtasks ++ [(cb, Port.redirect p)] } := by
  unfold onResult
  rw [discoverResult_fragMatch win requestId (s.pushHandler requestId cb) p hbuf hfrag hmatch]
  simp [consumeResult_, pushHandler]

end Activities

namespace Activities

theorem onResultList_nil (win : Win) (requestId : String) (s : Activities) :
    s.onResultList win requestId [] = s := rfl

theorem onResultList_cons (win : Win) (requestId : String) (c : Callback)
    (t : List Callback) (s : Activities) :
    s.onResultList win requestId (c :: t) =
      (s.onResult win requestId c).onResultList win requestId t := rfl

theorem onResultList_buffered (win : Win) (requestId : String) (cbs : List Callback)
    (s : Activities) (p : Port) (h : s.resultBuffer_ requestId = some p) :
    s.onResultList win requestId cbs =
      { s with
          requestHandlers_ :=
            updateFun s.requestHandlers_ requestId (s.requestHandlers_ requestId ++ cbs),
          microtasks := s.microtasks ++ cbs.map (fun cb => (cb, p)) } := by
  induction cbs generalizing s with
  | nil => simp [onResultList_nil, updateFun_self]
  | cons c t ih =>
    rw [onResultList_cons, onResult_buffered win requestId c s p h,
      ih ({ s with
        requestHandlers_ :=
          updateFun s.requestHandlers_ requestId (s.requestHandlers_ requestId ++ [c]),
        microtasks := s.microtasks ++ [(c, p)] }) h]
    simp [updateFun_updateFun, updateFun_apply_same, List.append_assoc]

theorem onResultList_noResult (win : Win) (requestId : String) (cbs : List Callback)
    (s : Activities) (hbuf : s.resultBuffer_ requestId = none)
    (hfrag : s.fragment_ = Hash.empty) :
    s.onResultList win requestId cbs =
      { s with
          requestHandlers_ :=
            updateFun s.requestHandlers_ requestId (s.requestHandlers_ requestId ++ cbs) } := by
  induction cbs generalizing s with
  | nil => simp [onResultList_nil, updateFun_self]
  | cons c t ih =>
    have hnp : discoverRedirectPort win s.fragment_ requestId = none := by
      rw [hfrag]
      rfl
    rw [onResultList_cons, onResult_noResult win requestId c s hbuf hnp,
      ih ({ s with
        requestHandlers_ :=
          updateFun s.requestHandlers_ requestId (s.requestHandlers_ requestId ++ [c]) })
        hbuf hfrag]
    simp [updateFun_updateFun, updateFun_apply_same, List.append_assoc]

theorem discoverResult_preserves_buffer (win : Win) (rid : String) (s : Activities)
    (requestId : String) (p : Port) (h : s.resultBuffer_ requestId = some p) :
    ((s.discoverResult_ win rid).2).resultBuffer_ requestId = some p := by
  unfold discoverResult_
  cases hb : s.resultBuffer_ rid with
  | some q => simpa using h
  | none =>
    by_cases hf : s.fragment_ = Hash.empty
    · simp [hf, h]
    · cases hd : discoverRedirectPort win s.fragment_ rid with
      | none => simp [hf, hd, h]
      | some q =>
        have hne : requestId ≠ rid := by
          rintro rfl
          simp [h] at hb
        simp [hf, hd, updateFun_apply_ne _ _ _ _ hne, h]

theorem onResult_preserves_buffer (win : Win) (rid : String) (cb : Callback)
    (s : Activities) (requestId : String) (p : Port)
    (h : s.resultBuffer_ requestId = some p) :
    (s.onResult win rid cb).resultBuffer_ requestId = some p := by
  have h1 : (s.pushHandler rid cb).resultBuffer_ requestId = some p := h
  have h2 := discoverResult_preserves_buffer win rid (s.pushHandler rid cb) requestId p h1
  unfold onResult
  rcases hd : (s.pushHandler rid cb).discoverResult_ win rid with ⟨op, s2⟩
  rw [hd] at h2
  cases op with
  | some q => simpa [consumeResult_] using h2
  | none => simpa using h2

end Activities

namespace Activities

theorem discoverResult_win_irrelevant (w w' : Win) (requestId : String) (s : Activities) :
    s.discoverResult_ w requestId = s.discoverResult_ w' requestId := by
  unfold discoverResult_
  cases hb : s.resultBuffer_ requestId with
  | some q => rfl
  | none =>
    by_cases hf : s.fragment_ = Hash.empty
    · simp [hf]
    · rw [if_neg hf, if_neg hf]
      cases hfr : s.fragment_ with
      | empty => exact absurd hfr hf
      | malformed t => rfl
      | result q => rfl

theorem onResult_win_irrelevant (w w' : Win) (requestId : String) (cb : Callback)
    (s : Activities) :
    s.onResult w requestId cb = s.onResult w' requestId cb := by
  unfold onResult
  rw [discoverResult_win_irrelevant w w' requestId (s.pushHandler requestId cb)]

end Activities

/-! ### The claims -/

/-- Claim C1: for every requestId, if N callbacks are registered via
`onResult` before the result for that requestId arrives and M more after,
every one of the N+M callbacks is invoked exactly once with the same Port
object, the pre-registered batch first in registration order, the
post-registered batch later in its own registration order.  The
invocation log after the queue drains is exactly the registration
sequence paired with the one delivered port. -/
theorem c1_pre_post_batches (win : Win) (requestId : String)
    (pre post : List Callback) (port : Port)
    (hfrag : win.locationHash = Hash.empty) :
    (((((Activities.new win).onResultList win requestId pre).consumeResultAll_
        requestId port).onResultList win requestId post).runMicrotasks).log =
      (pre ++ post).map (fun cb => (cb, port)) := by
  rw [Activities.onResultList_noResult win requestId pre (Activities.new win) rfl hfrag,
    Activities.consumeResultAll_spec]
  rw [Activities.onResultList_buffered win requestId post _ port
    (by simp [updateFun_apply_same])]
  rw [Activities.runMicrotasks_spec]
  simp [Activities.new, updateFun_apply_same, List.map_append]

/-- Witness for C1 at a concrete input: two callbacks registered before
the result, one after. -/
theorem c1_pre_post_batches_witness :
    cleanWin.locationHash = Hash.empty ∧
    (((((Activities.new cleanWin).onResultList cleanWin "r1" [cb1, cb2]).consumeResultAll_
        "r1" (Port.window 7)).onResultList cleanWin "r1" [cb3]).runMicrotasks).log =
      ([cb1, cb2] ++ [cb3]).map (fun cb => (cb, Port.window 7)) :=
  ⟨rfl, c1_pre_post_batches cleanWin "r1" [cb1, cb2] [cb3] (Port.window 7) rfl⟩

/-- Claim C2, counterexample: the claim says a buffered result for a
requestId is never overwritten by a later `open()` result arrival, but
`consumeResultAll_` writes the buffer unconditionally: after a second
result arrives for `"r1"`, the buffer no longer holds the first port. -/
theorem c2_counterexample :
    ((Activities.new cleanWin).consumeResultAll_ "r1" (Port.window 0)).resultBuffer_ "r1" =
        some (Port.window 0) ∧
    (((Activities.new cleanWin).consumeResultAll_ "r1" (Port.window 0)).consumeResultAll_
        "r1" (Port.window 1)).resultBuffer_ "r1" ≠ some (Port.window 0) := by
  constructor
  · rfl
  · decide

/-- Claim C2 as amended: once a Port is buffered for a requestId, no
later redirect discovery (`discoverResult_`, for any requestId) and no
later `onResult` registration overwrites the entry, and re-delivery of
the same port keeps it; only `consumeResultAll_` with a new result for
that requestId replaces it. -/
theorem c2_amended_no_overwrite (win : Win) (s : Activities) (rid requestId : String)
    (cb : Callback) (p : Port) (h : s.resultBuffer_ requestId = some p) :
    ((s.discoverResult_ win rid).2).resultBuffer_ requestId = some p ∧
    (s.onResult win rid cb).resultBuffer_ requestId = some p ∧
    (s.consumeResultAll_ requestId p).resultBuffer_ requestId = some p :=
  ⟨Activities.discoverResult_preserves_buffer win rid s requestId p h,
   Activities.onResult_preserves_buffer win rid cb s requestId p h,
   by simp [Activities.consumeResultAll_spec, updateFun_apply_same]⟩

/-- Witness for the amended C2: a buffered result for `"r1"` survives a
discovery and a registration under `"r2"` and a same-port re-delivery. -/
theorem c2_amended_no_overwrite_witness :
    ((Activities.new cleanWin).consumeResultAll_ "r1" (Port.window 0)).resultBuffer_ "r1" =
        some (Port.window 0) ∧
    (((((Activities.new cleanWin).consumeResultAll_ "r1"
          (Port.window 0)).discoverResult_ cleanWin "r2").2).resultBuffer_ "r1" =
        some (Port.window 0) ∧
      (((Activities.new cleanWin).consumeResultAll_ "r1" (Port.window 0)).onResult cleanWin
            "r2" cb1).resultBuffer_ "r1" =
          some (Port.window 0) ∧
        ((((Activities.new cleanWin).consumeResultAll_ "r1"
              (Port.window 0)).consumeResultAll_ "r1" (Port.window 0)).resultBuffer_ "r1" =
          some (Port.window 0))) :=
  ⟨rfl, c2_amended_no_overwrite cleanWin
    ((Activities.new cleanWin).consumeResultAll_ "r1" (Port.window 0)) "r2" "r1" cb1
    (Port.window 0) rfl⟩

/-- Claim C3: a redirect-fragment result tagged with requestId `x` is
never delivered to a callback registered under a distinct requestId `y`;
`discoverResult_ y` neither consumes nor buffers the fragment result, so
a later `onResult x` still receives it. -/
theorem c3_fragment_requestId_isolation (win : Win) (p : RedirectPayload)
    (x y : String) (cbY cbX : Callback)
    (hfrag : win.locationHash = Hash.result p) (hx : p.requestId = x) (hxy : x ≠ y) :
    ((Activities.new win).discoverResult_ win y) = (none, Activities.new win) ∧
    (((Activities.new win).onResult win y cbY).runMicrotasks).log = [] ∧
    ((Activities.new win).onResult win y cbY).resultBuffer_ y = none ∧
    ((Activities.new win).onResult win y cbY).resultBuffer_ x = none ∧
    ((((Activities.new win).onResult win y cbY).onResult win x cbX).runMicrotasks).log =
      [(cbX, Port.redirect p)] := by
  have hfrag0 : (Activities.new win).fragment_ = Hash.result p := hfrag
  have hnoportY : discoverRedirectPort win (Activities.new win).fragment_ y = none := by
    rw [hfrag0]
    simp [discoverRedirectPort, hx, hxy]
  have hy := Activities.onResult_noResult win y cbY (Activities.new win) rfl hnoportY
  refine ⟨Activities.discoverResult_noResult win y (Activities.new win) rfl hnoportY,
    ?_, ?_, ?_, ?_⟩
  · rw [hy, Activities.runMicrotasks_spec]
    simp [Activities.new]
  · rw [hy]
    rfl
  · rw [hy]
    rfl
  · rw [hy]
    rw [Activities.onResult_fragMatch win x cbX
      { fragment_ := (Activities.new win).fragment_,
        requestHandlers_ :=
          updateFun (Activities.new win).requestHandlers_ y
            ((Activities.new win).requestHandlers_ y ++ [cbY]),
        resultBuffer_ := (Activities.new win).resultBuffer_,
        microtasks := (Activities.new win).microtasks,
        log := (Activities.new win).log } p rfl hfrag0 hx,
      Activities.runMicrotasks_spec]
    simp [Activities.new]

/-- Witness for C3: fragment tagged `"X"`, handler under `"Y"` never
invoked, fragment neither consumed nor buffered, later handler under
`"X"` still receives it. -/
theorem c3_fragment_requestId_isolation_witness :
    fragWin.locationHash = Hash.result payloadX ∧ payloadX.requestId = "X" ∧ "X" ≠ "Y" ∧
    (((Activities.new fragWin).discoverResult_ fragWin "Y") =
        (none, Activities.new fragWin) ∧
      (((Activities.new fragWin).onResult fragWin "Y" cb1).runMicrotasks).log = [] ∧
      ((Activities.new fragWin).onResult fragWin "Y" cb1).resultBuffer_ "Y" = none ∧
      ((Activities.new fragWin).onResult fragWin "Y" cb1).resultBuffer_ "X" = none ∧
      ((((Activities.new fragWin).onResult fragWin "Y" cb1).onResult fragWin "X"
          cb3).runMicrotasks).log = [(cb3, Port.redirect payloadX)]) :=
  ⟨rfl, rfl, by decide,
    c3_fragment_requestId_isolation fragWin payloadX "X" "Y" cb1 cb3 rfl rfl (by decide)⟩

/-- Claim C4: when one registered callback throws on invocation, every
sibling callback registered for the same requestId is still invoked with
the result, and the buffered entry for that requestId is unaffected:
after the result for `requestId` arrives and the queue drains, the log
holds one invocation per registered handler and the buffer holds the
port, whether or not some handler's `throws` flag is set. -/
theorem c4_throwing_callback_isolated (win : Win) (requestId : String)
    (handlers : List Callback) (port : Port) (cb : Callback)
    (hfrag : win.locationHash = Hash.empty) (hmem : cb ∈ handlers)
    (hthrows : cb.throws = true) :
    ((((Activities.new win).onResultList win requestId handlers).consumeResultAll_
        requestId port).runMicrotasks).log = handlers.map (fun c => (c, port)) ∧
    ((((Activities.new win).onResultList win requestId handlers).consumeResultAll_
        requestId port).runMicrotasks).resultBuffer_ requestId = some port := by
  rw [Activities.onResultList_noResult win requestId handlers (Activities.new win) rfl hfrag,
    Activities.consumeResultAll_spec, Activities.runMicrotasks_spec]
  constructor
  · simp [Activities.new, updateFun_apply_same]
  · simp [updateFun_apply_same]

/-- Witness for C4: `cb2` (which throws) and `cb1` both registered;
both are invoked and the buffer keeps the port. -/
theorem c4_throwing_callback_isolated_witness :
    cleanWin.locationHash = Hash.empty ∧ cb2 ∈ [cb2, cb1] ∧ cb2.throws = true ∧
    (((((Activities.new cleanWin).onResultList cleanWin "r1" [cb2, cb1]).consumeResultAll_
        "r1" (Port.window 5)).runMicrotasks).log =
        [cb2, cb1].map (fun c => (c, Port.window 5)) ∧
      ((((Activities.new cleanWin).onResultList cleanWin "r1"
            [cb2, cb1]).consumeResultAll_ "r1" (Port.window 5)).runMicrotasks).resultBuffer_
          "r1" = some (Port.window 5)) :=
  ⟨rfl, List.mem_cons_self cb2 [cb1], rfl,
    c4_throwing_callback_isolated cleanWin "r1" [cb2, cb1] (Port.window 5) cb2 rfl
      (List.mem_cons_self cb2 [cb1]) rfl⟩

/-- Claim C5: `connectHost` selects the host variant purely from the
windowing relationships — `top` not the same context gives an Iframe
Host; otherwise a non-null opener with `closed = false` gives a Popup
Host; all remaining cases give a Redirect Host — and it returns the
promise of that host's `connect(request)` with the request passed
through unchanged. -/
theorem c5_host_selection (win : Win) (request : Option String) :
    Activities.connectHost win request =
      { variant := specHostVariant win, win := win, request := request } := by
  rcases win with ⟨t, o, hsh⟩
  rcases o with _ | o
  · cases t <;> rfl
  · rcases o with ⟨b⟩
    cases t <;> cases b <;> rfl

/-- Claim C6: when `onResult` is called while a result for the requestId
is already available (buffered or discoverable in the captured
fragment), the callback is never invoked synchronously during the call:
the log is untouched, exactly one delivery for the callback is appended
to the microtask queue, and it runs once on the next drain. -/
theorem c6_deferred_delivery (win : Win) (requestId : String) (cb : Callback)
    (s : Activities) (p : Port)
    (h : (s.discoverResult_ win requestId).1 = some p) :
    (s.onResult win requestId cb).log = s.log ∧
    (s.onResult win requestId cb).microtasks = s.microtasks ++ [(cb, p)] ∧
    ((s.onResult win requestId cb).runMicrotasks).log =
      s.log ++ s.microtasks ++ [(cb, p)] := by
  cases hb : s.resultBuffer_ requestId with
  | some q =>
    have hq : q = p := by
      rw [Activities.discoverResult_buffered win requestId s q hb] at h
      exact Option.some_injective _ h
    rw [Activities.onResult_buffered win requestId cb s q hb,
      Activities.runMicrotasks_spec, hq]
    refine ⟨rfl, rfl, ?_⟩
    simp [List.append_assoc]
  | none =>
    cases hf : s.fragment_ with
    | empty =>
      exfalso
      have hd := Activities.discoverResult_noResult win requestId s hb (by rw [hf]; rfl)
      rw [hd] at h
      simp at h
    | malformed t =>
      exfalso
      have hd := Activities.discoverResult_noResult win requestId s hb (by rw [hf]; rfl)
      rw [hd] at h
      simp at h
    | result q =>
      by_cases hm : q.requestId = requestId
      · have hp : p = Port.redirect q := by
          rw [Activities.discoverResult_fragMatch win requestId s q hb hf hm] at h
          simpa using h.symm
        subst hp
        rw [Activities.onResult_fragMatch win requestId cb s q hb hf hm,
          Activities.runMicrotasks_spec]
        refine ⟨rfl, rfl, ?_⟩
        simp [List.append_assoc]
      · exfalso
        have hnp : discoverRedirectPort win s.fragment_ requestId = none := by
          rw [hf]
          simp [discoverRedirectPort, hm]
        have hd := Activities.discoverResult_noResult win requestId s hb hnp
        rw [hd] at h
        simp at h

/-- Witness for C6: a result for `"r1"` is buffered; registering `cb1`
schedules exactly one deferred delivery and invokes nothing
synchronously. -/
theorem c6_deferred_delivery_witness :
    ((((Activities.new cleanWin).consumeResultAll_ "r1"
        (Port.window 0)).discoverResult_ cleanWin "r1").1 = some (Port.window 0)) ∧
    ((((Activities.new cleanWin).consumeResultAll_ "r1" (Port.window 0)).onResult cleanWin
          "r1" cb1).log =
        ((Activities.new cleanWin).consumeResultAll_ "r1" (Port.window 0)).log ∧
      (((Activities.new cleanWin).consumeResultAll_ "r1" (Port.window 0)).onResult cleanWin
            "r1" cb1).microtasks =
          ((Activities.new cleanWin).consumeResultAll_ "r1" (Port.window 0)).microtasks ++
            [(cb1, Port.window 0)] ∧
        ((((Activities.new cleanWin).consumeResultAll_ "r1" (Port.window 0)).onResult
              cleanWin "r1" cb1).runMicrotasks).log =
          ((Activities.new cleanWin).consumeResultAll_ "r1" (Port.window 0)).log ++
              ((Activities.new cleanWin).consumeResultAll_ "r1" (Port.window 0)).microtasks ++
            [(cb1, Port.window 0)]) :=
  ⟨rfl, c6_deferred_delivery cleanWin "r1" cb1
    ((Activities.new cleanWin).consumeResultAll_ "r1" (Port.window 0)) (Port.window 0) rfl⟩

/-- Claim C7: `open` returns no caller-visible promise (its only return
value is the unchanged manager state and the constructed port), and when
the opened port's result arrives, the manager schedules a dispatch to
every callback currently registered for the requestId and stores the
port in the result buffer unconditionally — in particular the buffer is
written even when the handler list is empty, since the scheduled batch
is exactly the handler list mapped to deliveries. -/
theorem c7_open_dispatch_and_buffer (s : Activities) (requestId url target : String)
    (portId : Nat) (port : Port) :
    (Activities.open_ requestId url target portId s).1 = s ∧
    (s.consumeResultAll_ requestId port).resultBuffer_ requestId = some port ∧
    (s.consumeResultAll_ requestId port).microtasks =
      s.microtasks ++ (s.requestHandlers_ requestId).map (fun h => (h, port)) ∧
    (s.consumeResultAll_ requestId port).log = s.log :=
  ⟨rfl, by simp [Activities.consumeResultAll_spec, updateFun_apply_same],
    by simp [Activities.consumeResultAll_spec],
    by simp [Activities.consumeResultAll_spec]⟩

/-- Claim C8: `openIframe` constructs an iframe port bound to the given
frame and URL, starts its connect handshake, and returns a promise that
resolves with that same port on handshake success and rejects with
exactly the underlying failure on handshake failure. -/
theorem c8_openIframe_connect (iframe : Nat) (url : String) (args : Option String)
    (e : String) :
    Activities.openIframe iframe url args (Except.ok ()) =
      Except.ok ({ iframe_ := iframe, url_ := url, args_ := args } : ActivityIframePort) ∧
    Activities.openIframe iframe url args (Except.error e) = Except.error e :=
  ⟨rfl, rfl⟩

/-- Claim C9: redirect-result discovery depends only on the fragment
snapshotted at construction plus the instance's own state: mutating
`win.location.hash` after construction changes neither the outcome of
`discoverResult_` nor that of `onResult`. -/
theorem c9_discovery_ignores_live_hash (win : Win) (h : Hash) (requestId : String)
    (cb : Callback) (s : Activities) :
    s.discoverResult_ (Win.setHash win h) requestId = s.discoverResult_ win requestId ∧
    s.onResult (Win.setHash win h) requestId cb = s.onResult win requestId cb :=
  ⟨Activities.discoverResult_win_irrelevant (Win.setHash win h) win requestId s,
    Activities.onResult_win_irrelevant (Win.setHash win h) win requestId cb s⟩

/-- Claim C10: callbacks are never deregistered: after a first result was
delivered for a requestId, a second result arriving for the same
requestId invokes every previously registered callback again with the
new port, in addition to the earlier invocation with the first port. -/
theorem c10_callbacks_not_deregistered (win : Win) (requestId : String)
    (handlers : List Callback) (pA pB : Port)
    (hfrag : win.locationHash = Hash.empty) :
    ((((Activities.new win).onResultList win requestId handlers).consumeResultAll_
        requestId pA).runMicrotasks).requestHandlers_ requestId = handlers ∧
    (((((((Activities.new win).onResultList win requestId handlers).consumeResultAll_
        requestId pA).runMicrotasks).consumeResultAll_ requestId pB).runMicrotasks).log =
      handlers.map (fun c => (c, pA)) ++ handlers.map (fun c => (c, pB))) := by
  rw [Activities.onResultList_noResult win requestId handlers (Activities.new win) rfl hfrag,
    Activities.consumeResultAll_spec, Activities.runMicrotasks_spec,
    Activities.consumeResultAll_spec, Activities.runMicrotasks_spec]
  constructor
  · simp [Activities.new, updateFun_apply_same]
  · simp [Activities.new, updateFun_apply_same, List.map_append]

/-- Witness for C10: one callback, two successive results for `"r1"`. -/
theorem c10_callbacks_not_deregistered_witness :
    cleanWin.locationHash = Hash.empty ∧
    (((((Activities.new cleanWin).onResultList cleanWin "r1" [cb1]).consumeResultAll_
        "r1" (Port.window 0)).runMicrotasks).requestHandlers_ "r1" = [cb1] ∧
      ((((((Activities.new cleanWin).onResultList cleanWin "r1" [cb1]).consumeResultAll_
          "r1" (Port.window 0)).runMicrotasks).consumeResultAll_ "r1"
          (Port.window 1)).runMicrotasks).log =
        [cb1].map (fun c => (c, Port.window 0)) ++ [cb1].map (fun c => (c, Port.window 1))) :=
  ⟨rfl, c10_callbacks_not_deregistered cleanWin "r1" [cb1] (Port.window 0) (Port.window 1) rfl⟩
